import Mathlib

/-!
Shallow embedding of `src/men.gov.py`, a stateful poller that fetches a
newest-first announcement feed, diffs it against a persisted last-seen
marker, and notifies sinks about new entries.

Strings are modelled as `List Char` (Python strings are character
sequences).  Side effects of one polling cycle (`check_once`) are recorded
explicitly in a `CycleResult` structure: the value returned to the caller,
the arguments of every `save_last_id` call, the argument of the
`notify_new_announcements` call when it happens, the `new_items` list when
the diff step computes one, and whether the stale-marker warning branch was
taken.
-/

/-- Python strings, modelled as character lists. -/
abbrev Str := List Char

/-- One attached document link, from the `pdf` array of the feed JSON:
`{url, label_fr}`, either key possibly absent. -/
structure Pdf where
  url : Option Str
  label_fr : Option Str
  deriving Repr, DecidableEq

/-- One announcement record from the feed JSON.  Only the fields the
monitored behaviour reads are modelled: `id` (always present, the code
indexes `a["id"]`), the optional French title, and the `pdf` array (an
absent key behaves like the empty list under Python truthiness). -/
structure Announcement where
  id : Str
  title_fr : Option Str
  pdf : List Pdf
  deriving Repr, DecidableEq

/-- The failure modes of `fetch_announcements` (`requests.get` raising,
`raise_for_status` on a non-2xx reply, or `resp.json()` failing to parse),
all caught by the `except Exception` clause in `check_once`. -/
inductive FetchError where
  | network
  | httpStatus
  | badJson
  deriving Repr, DecidableEq

/-- Model of `get_latest_id`: the id of the first (newest) announcement, `None` on an
empty list. -/
def get_latest_id : List Announcement → Option Str
  | [] => none
  | a :: _ => some a.id

/-- Python whitespace: the characters `str.strip()` removes, i.e. those for
which `str.isspace()` holds (CPython's Unicode whitespace table: U+0009 to
U+000D, U+001C to U+001F, U+0020, U+0085, U+00A0, U+1680, U+2000 to U+200A,
U+2028, U+2029, U+202F, U+205F, U+3000). -/
def pyIsSpace (c : Char) : Bool :=
  (0x09 ≤ c.toNat && c.toNat ≤ 0x0D) || (0x1C ≤ c.toNat && c.toNat ≤ 0x1F)
    || c.toNat = 0x20 || c.toNat = 0x85 || c.toNat = 0xA0 || c.toNat = 0x1680
    || (0x2000 ≤ c.toNat && c.toNat ≤ 0x200A)
    || c.toNat = 0x2028 || c.toNat = 0x2029 || c.toNat = 0x202F
    || c.toNat = 0x205F || c.toNat = 0x3000

/-- Model of Python `str.strip()`: remove leading and trailing whitespace. -/
def pyStrip (s : Str) : Str :=
  ((s.dropWhile pyIsSpace).reverse.dropWhile pyIsSpace).reverse

/-- Model of `load_last_id`: the state file is modelled as `Option Str` (absent, or
its text content).  Returns `None` when the file does not exist, and the
stripped content otherwise, with `or None` turning an empty strip result
into `None`. -/
def load_last_id (stateFile : Option Str) : Option Str :=
  match stateFile with
  | none => none
  | some contents =>
    let s := pyStrip contents
    if s = [] then none else some s

/-- Model of `save_last_id`: overwrite the state file with the id (Python
`write_text(str(last_id))`; `str` is the identity on strings). -/
def save_last_id (last_id : Str) (_stateFile : Option Str) : Option Str :=
  some last_id

/-- One single-character replacement step of `format_telegram_text_html`:
Python `str.replace(c, r)` for a one-character needle replaces every
occurrence of `c` by `r`. -/
def replaceChar (c : Char) (r : Str) : Str → Str
  | [] => []
  | x :: xs => (if x = c then r else [x]) ++ replaceChar c r xs

/-- Model of `format_telegram_text_html`: escape `&` first, then `<`, then `>`. -/
def format_telegram_text_html (text : Str) : Str :=
  replaceChar '>' "&gt;".data
    (replaceChar '<' "&lt;".data
      (replaceChar '&' "&amp;".data text))

/-- The per-character effect of the three sequential replacements of
`format_telegram_text_html` (in the source's order, `&` first). -/
def escChar (c : Char) : Str :=
  if c = '&' then "&amp;".data
  else if c = '<' then "&lt;".data
  else if c = '>' then "&gt;".data
  else [c]

/-- The apostrophe character used to quote the href attribute. -/
def apos : Char := Char.ofNat 39

/-- The `base_url` constant of `notify_new_announcements`. -/
def base_url : Str := "https://www.men.gov.ma/".data

/-- The link line appended for an item when `pdfs and pdfs[0].get('url')`
is truthy: absent key, empty list, absent url, or empty url all suppress
it. -/
def pdf_link_part (a : Announcement) : Str :=
  match a.pdf with
  | [] => []
  | p :: _ =>
    match p.url with
    | none => []
    | some u =>
      if u = [] then []
      else
        "\n  <a href=".data ++ [apos] ++ base_url ++ u ++ [apos, '>']
          ++ format_telegram_text_html (p.label_fr.getD "View Document".data)
          ++ "</a>".data

/-- The text appended to `telegram_message` for one displayed item: a bold
id line (the id interpolated verbatim), a bold title line (the title passed
through `format_telegram_text_html`), then the optional link line. -/
def telegram_item_block (a : Announcement) : Str :=
  "\n\n- <b>ID: ".data ++ a.id ++ "</b>\n  <b>".data
    ++ format_telegram_text_html (a.title_fr.getD "Announcement".data)
    ++ "</b>".data ++ pdf_link_part a

/-- The aggregated chat message built by `notify_new_announcements`:
header with the count of new items, then one block per item in
oldest-new-first order (`reversed(new_items)`). -/
def telegram_message (new_items : List Announcement) : Str :=
  "<b>📢 ".data ++ (toString new_items.length).data
    ++ " New MEN Announcement(s)!</b>\n".data
    ++ (new_items.reverse.map telegram_item_block).flatten

/-- The marker search of `check_once`:
`next(i for i, a in enumerate(announcements) if a["id"] == last_seen_id)`,
`None` standing for the `StopIteration` outcome. -/
def find_index_of_id (last_seen_id : Str) : List Announcement → Option Nat
  | [] => none
  | a :: rest =>
    if a.id = last_seen_id then some 0
    else (find_index_of_id last_seen_id rest).map (· + 1)

/-- The observable outcome of one `check_once` cycle. -/
structure CycleResult where
  /-- The value `check_once` returns (the marker carried into the next
  cycle). -/
  ret : Option Str
  /-- The arguments of the `save_last_id` calls made during the cycle, in
  order. -/
  saved : List Str
  /-- The argument of the `notify_new_announcements` call, when one is
  made. -/
  notified : Option (List Announcement)
  /-- The `new_items` list, when the diff step of the cycle computes one
  (`none` when the cycle returns before reaching it). -/
  newItems : Option (List Announcement)
  /-- Whether the stale-marker (`StopIteration`) warning branch was
  taken. -/
  staleWarning : Bool
  deriving Repr, DecidableEq

/-- Model of `check_once`, with the fetch outcome passed in explicitly (`Except`
models `fetch_announcements` either returning a feed or raising). -/
def check_once (fetched : Except FetchError (List Announcement))
    (last_seen_id : Option Str) : CycleResult :=
  match fetched with
  | .error _ =>
    { ret := last_seen_id, saved := [], notified := none, newItems := none,
      staleWarning := false }
  | .ok announcements =>
    match get_latest_id announcements with
    | none =>
      { ret := last_seen_id, saved := [], notified := none, newItems := none,
        staleWarning := false }
    | some latest_id =>
      match last_seen_id with
      | none =>
        { ret := some latest_id, saved := [latest_id], notified := none,
          newItems := none, staleWarning := false }
      | some last =>
        if latest_id = last then
          { ret := some last, saved := [], notified := none, newItems := none,
            staleWarning := false }
        else
          match find_index_of_id last announcements with
          | some k =>
            let new_items := announcements.take k
            if new_items = [] then
              { ret := some last, saved := [], notified := none,
                newItems := some new_items, staleWarning := false }
            else
              { ret := some latest_id, saved := [latest_id],
                notified := some new_items, newItems := some new_items,
                staleWarning := false }
          | none =>
            let new_items := announcements
            if new_items = [] then
              { ret := some last, saved := [], notified := none,
                newItems := some new_items, staleWarning := true }
            else
              { ret := some latest_id, saved := [latest_id],
                notified := some new_items, newItems := some new_items,
                staleWarning := true }

/-- The newest id of a fetch outcome: `none` on failure or an empty feed. -/
def fetched_latest (fetched : Except FetchError (List Announcement)) : Option Str :=
  match fetched with
  | .error _ => none
  | .ok l => get_latest_id l

/-- C3: on a non-empty feed, a cycle started with an absent marker persists
the newest feed id as the marker, returns it, produces zero new items, and
notifies no sink. -/
theorem c3_init_persists_latest_no_notify (a : Announcement) (rest : List Announcement) :
    (check_once (.ok (a :: rest)) none).ret = some a.id ∧
    (check_once (.ok (a :: rest)) none).saved = [a.id] ∧
    (check_once (.ok (a :: rest)) none).notified = none ∧
    ((check_once (.ok (a :: rest)) none).newItems.getD []) = [] := by
  simp [check_once, get_latest_id]

/-- C6: a cycle whose fetch fails (for any of the modelled failure modes:
network failure, non-2xx status, malformed JSON) returns the prior marker
unchanged, saves nothing, and notifies no sink; `check_once` is a total
function, mirroring the `except` clause that stops the exception at the
cycle boundary. -/
theorem c6_fetch_failure_keeps_marker (e : FetchError) (last : Option Str) :
    (check_once (.error e) last).ret = last ∧
    (check_once (.error e) last).saved = [] ∧
    (check_once (.error e) last).notified = none := by
  simp [check_once]

/-- Searching a cons cell whose head does not match shifts the found index
by one. -/
theorem find_index_cons_ne {a : Announcement} {m : Str} {rest : List Announcement}
    (hne : a.id ≠ m) (k : Nat) (hfind : find_index_of_id m (a :: rest) = some k) :
    ∃ j, find_index_of_id m rest = some j ∧ k = j + 1 := by
  simp [find_index_of_id, hne] at hfind
  obtain ⟨j, hj, hk⟩ := hfind
  exact ⟨j, hj, hk.symm⟩

/-- C10: a cycle returns either the marker it was given or the fetched
feed's newest id, and every `save_last_id` call of the cycle writes exactly
the fetched feed's newest id (there is at most one such call). -/
theorem c10_saves_only_latest (fetched : Except FetchError (List Announcement))
    (last : Option Str) :
    ((check_once fetched last).ret = last ∨
      (check_once fetched last).ret = fetched_latest fetched) ∧
    ((check_once fetched last).saved = [] ∨
      ∃ i, fetched_latest fetched = some i ∧ (check_once fetched last).saved = [i]) := by
  cases fetched with
  | error e => simp [check_once, fetched_latest]
  | ok l =>
    cases l with
    | nil => simp [check_once, fetched_latest, get_latest_id]
    | cons a rest =>
      cases last with
      | none => simp [check_once, fetched_latest, get_latest_id]
      | some m =>
        by_cases hm : a.id = m
        · simp [check_once, fetched_latest, get_latest_id, hm]
        · cases hfind : find_index_of_id m (a :: rest) with
          | some k =>
            by_cases hk : (a :: rest).take k = []
            · simp [check_once, fetched_latest, get_latest_id, hm, hfind, hk]
            · simp [check_once, fetched_latest, get_latest_id, hm, hfind, hk]
          | none =>
            simp [check_once, fetched_latest, get_latest_id, hm, hfind]

/-- C1: with a present marker that occurs first at index `k` in a non-empty
feed whose newest id differs from the marker, the cycle's new-items list is
exactly the first `k` feed entries in feed order, and that same list is
what the notifier is invoked with. -/
theorem c1_new_items_are_prefix_before_marker (a : Announcement)
    (rest : List Announcement) (m : Str) (k : Nat) (hne : a.id ≠ m)
    (hfind : find_index_of_id m (a :: rest) = some k) :
    (check_once (.ok (a :: rest)) (some m)).newItems = some ((a :: rest).take k) ∧
    (check_once (.ok (a :: rest)) (some m)).notified = some ((a :: rest).take k) := by
  obtain ⟨j, hj, hk⟩ := find_index_cons_ne hne k hfind
  subst hk
  have htake : (a :: rest).take (j + 1) ≠ [] := by simp
  simp [check_once, get_latest_id, hne, hfind, htake]

/-- Concrete feed entries used by the spec's worked examples. -/
def annA : Announcement := { id := "A".data, title_fr := none, pdf := [] }

/-- Concrete feed entry `B`. -/
def annB : Announcement := { id := "B".data, title_fr := none, pdf := [] }

/-- Concrete feed entry `C`. -/
def annC : Announcement := { id := "C".data, title_fr := none, pdf := [] }

/-- Concrete feed entry `D`. -/
def annD : Announcement := { id := "D".data, title_fr := none, pdf := [] }

/-- C1 witness: feed `[A,B,C,D]` with marker `C` yields new items `[A,B]`
in that order. -/
theorem c1_witness :
    (check_once (.ok [annA, annB, annC, annD]) (some "C".data)).newItems
      = some [annA, annB] ∧
    (check_once (.ok [annA, annB, annC, annD]) (some "C".data)).notified
      = some [annA, annB] := by
  have h := c1_new_items_are_prefix_before_marker annA [annB, annC, annD]
    "C".data 2 (by decide) (by decide)
  simpa using h

/-- C2: with a present marker that occurs nowhere in a non-empty feed, the
cycle treats the whole feed as new, notifies with it, and takes the
distinguishable stale-marker warning branch. -/
theorem c2_stale_marker_treats_whole_feed_new (a : Announcement)
    (rest : List Announcement) (m : Str)
    (hfind : find_index_of_id m (a :: rest) = none) :
    (check_once (.ok (a :: rest)) (some m)).newItems = some (a :: rest) ∧
    (check_once (.ok (a :: rest)) (some m)).notified = some (a :: rest) ∧
    (check_once (.ok (a :: rest)) (some m)).staleWarning = true := by
  have hne : a.id ≠ m := by
    intro h
    simp [find_index_of_id, h] at hfind
  simp [check_once, get_latest_id, hne, hfind]

/-- C2 witness: feed `[A,B,C]` with absent marker `Z` yields new items
`[A,B,C]` and the stale-marker warning. -/
theorem c2_witness :
    (check_once (.ok [annA, annB, annC]) (some "Z".data)).newItems
      = some [annA, annB, annC] ∧
    (check_once (.ok [annA, annB, annC]) (some "Z".data)).notified
      = some [annA, annB, annC] ∧
    (check_once (.ok [annA, annB, annC]) (some "Z".data)).staleWarning = true := by
  exact c2_stale_marker_treats_whole_feed_new annA [annB, annC] "Z".data (by decide)

/-- C7: a cycle on a successful fetch in which the feed is empty, or the
feed's newest id equals the present marker, or the diff step computes an
empty new-items list, returns the marker it was given, saves nothing, and
notifies no sink. -/
theorem c7_noop_cycles_keep_marker (feed : List Announcement) (last : Option Str)
    (h : feed = [] ∨ (∃ a rest, feed = a :: rest ∧ last = some a.id) ∨
      (check_once (.ok feed) last).newItems = some []) :
    (check_once (.ok feed) last).ret = last ∧
    (check_once (.ok feed) last).saved = [] ∧
    (check_once (.ok feed) last).notified = none := by
  rcases h with h | ⟨a, rest, hfeed, hlast⟩ | h
  · subst h
    simp [check_once, get_latest_id]
  · subst hfeed
    subst hlast
    simp [check_once, get_latest_id]
  · cases feed with
    | nil => simp [check_once, get_latest_id]
    | cons a rest =>
      cases last with
      | none => simp [check_once, get_latest_id] at h
      | some m =>
        by_cases hm : a.id = m
        · simp [check_once, get_latest_id, hm]
        · cases hfind : find_index_of_id m (a :: rest) with
          | some k =>
            by_cases hk : (a :: rest).take k = []
            · simp [check_once, get_latest_id, hm, hfind, hk]
            · simp [check_once, get_latest_id, hm, hfind, hk] at h
          | none =>
            simp [check_once, get_latest_id, hm, hfind] at h

/-- C7 witness: feed `[A,B,C]` with marker `A` leaves the marker unchanged
and notifies nothing. -/
theorem c7_witness :
    (check_once (.ok [annA, annB, annC]) (some "A".data)).ret = some "A".data ∧
    (check_once (.ok [annA, annB, annC]) (some "A".data)).saved = [] ∧
    (check_once (.ok [annA, annB, annC]) (some "A".data)).notified = none := by
  exact c7_noop_cycles_keep_marker [annA, annB, annC] (some "A".data)
    (Or.inr (Or.inl ⟨annA, [annB, annC], rfl, rfl⟩))

/-- C4: whatever the starting marker, running one cycle and then a second
cycle on the same unchanged feed gives a second cycle that computes no
new-items list, notifies no sink, and saves nothing. -/
theorem c4_second_cycle_on_unchanged_feed_is_quiet (feed : List Announcement)
    (last : Option Str) :
    (check_once (.ok feed) ((check_once (.ok feed) last).ret)).notified = none ∧
    (check_once (.ok feed) ((check_once (.ok feed) last).ret)).newItems = none ∧
    (check_once (.ok feed) ((check_once (.ok feed) last).ret)).saved = [] := by
  cases feed with
  | nil => simp [check_once, get_latest_id]
  | cons a rest =>
    have hsecond : (check_once (.ok (a :: rest)) (some a.id)).notified = none ∧
        (check_once (.ok (a :: rest)) (some a.id)).newItems = none ∧
        (check_once (.ok (a :: rest)) (some a.id)).saved = [] := by
      simp [check_once, get_latest_id]
    cases last with
    | none =>
      have hret : (check_once (.ok (a :: rest)) none).ret = some a.id := by
        simp [check_once, get_latest_id]
      rw [hret]
      exact hsecond
    | some m =>
      by_cases hm : a.id = m
      · have hret : (check_once (.ok (a :: rest)) (some m)).ret = some m := by
          simp [check_once, get_latest_id, hm]
        rw [hret, ← hm]
        exact hsecond
      · cases hfind : find_index_of_id m (a :: rest) with
        | some k =>
          obtain ⟨j, hj, hk⟩ := find_index_cons_ne hm k hfind
          subst hk
          have htake : (a :: rest).take (j + 1) ≠ [] := by simp
          have hret : (check_once (.ok (a :: rest)) (some m)).ret = some a.id := by
            simp [check_once, get_latest_id, hm, hfind, htake]
          rw [hret]
          exact hsecond
        | none =>
          have hret : (check_once (.ok (a :: rest)) (some m)).ret = some a.id := by
            simp [check_once, get_latest_id, hm, hfind]
          rw [hret]
          exact hsecond

/-- Lemma: `replaceChar` distributes over list append. -/
theorem replaceChar_append (c : Char) (r : Str) (s t : Str) :
    replaceChar c r (s ++ t) = replaceChar c r s ++ replaceChar c r t := by
  induction s with
  | nil => rfl
  | cons x xs ih => simp [replaceChar, ih, List.append_assoc]

/-- The escaping pipeline on a single character computes `escChar`. -/
theorem format_telegram_single (x : Char) :
    format_telegram_text_html [x] = escChar x := by
  by_cases h1 : x = '&'
  · subst h1; decide
  by_cases h2 : x = '<'
  · subst h2; decide
  by_cases h3 : x = '>'
  · subst h3; decide
  simp [format_telegram_text_html, replaceChar, escChar, h1, h2, h3]

/-- The escaping pipeline distributes over list append. -/
theorem format_telegram_append (s t : Str) :
    format_telegram_text_html (s ++ t)
      = format_telegram_text_html s ++ format_telegram_text_html t := by
  simp [format_telegram_text_html, replaceChar_append]

/-- The escaping pipeline acts character by character. -/
theorem format_telegram_cons (x : Char) (xs : Str) :
    format_telegram_text_html (x :: xs)
      = escChar x ++ format_telegram_text_html xs := by
  have h : x :: xs = [x] ++ xs := rfl
  rw [h, format_telegram_append, format_telegram_single]

/-- Every `escChar` block is free of unescaped markup characters. -/
theorem escChar_all_safe (x : Char) :
    (escChar x).all (fun c => !(c == '<') && !(c == '>')) = true := by
  by_cases h1 : x = '&'
  · subst h1; decide
  by_cases h2 : x = '<'
  · subst h2; decide
  by_cases h3 : x = '>'
  · subst h3; decide
  simp [escChar, h1, h2, h3]

/-- C8: the escaping function maps `<b>&test</b>` to exactly
`&lt;b&gt;&amp;test&lt;/b&gt;`, and on every input its output contains no
`<` or `>` and decomposes as the concatenation of per-character blocks
(`&amp;`, `&lt;`, `&gt;`, or a lone non-markup character) produced by
replacing `&`, `<`, `>` in that order — so every `&` of the output begins
one of those escape sequences. -/
theorem c8_escaping_correct :
    format_telegram_text_html "<b>&test</b>".data
      = "&lt;b&gt;&amp;test&lt;/b&gt;".data ∧
    ∀ s : Str,
      (format_telegram_text_html s).all (fun c => !(c == '<') && !(c == '>')) = true ∧
      format_telegram_text_html s = (s.map escChar).flatten := by
  constructor
  · decide
  · intro s
    induction s with
    | nil => exact ⟨rfl, rfl⟩
    | cons x xs ih =>
      rw [format_telegram_cons]
      refine ⟨?_, ?_⟩
      · simp [List.all_append, escChar_all_safe x, ih.1]
      · simp [ih.2]

/-- C9 counterexample: saving the whitespace-only identifier consisting of
one space and then loading does not return it — the load strips it to
emptiness and reports absence, so the unconditional round-trip fails. -/
theorem c9_counterexample :
    load_last_id (save_last_id [' '] none) ≠ some [' '] := by
  decide

/-- The strip result is empty exactly when every character of the content
is whitespace. -/
theorem pyStrip_eq_nil_iff (c : Str) :
    pyStrip c = [] ↔ c.all pyIsSpace = true := by
  simp only [pyStrip, List.reverse_eq_nil_iff, List.dropWhile_eq_nil_iff,
    List.mem_reverse, List.all_eq_true]
  constructor
  · intro h x hx
    rw [← List.takeWhile_append_dropWhile (p := pyIsSpace) (l := c)] at hx
    rcases List.mem_append.mp hx with h1 | h2
    · exact List.mem_takeWhile_imp h1
    · exact h x h2
  · intro h x hx
    exact h x ((List.dropWhile_sublist pyIsSpace).subset hx)

/-- C9 amended: the save/load round-trip returns the identifier unchanged
for every identifier that is non-empty and carries no surrounding
whitespace (`strip` leaves it intact); and a load reports absence exactly
when the state file does not exist or its content is whitespace-only
(including empty). -/
theorem c9_roundtrip_amended :
    (∀ (i : Str) (file : Option Str), pyStrip i = i → i ≠ [] →
      load_last_id (save_last_id i file) = some i) ∧
    (∀ file : Option Str, load_last_id file = none ↔
      file = none ∨ ∃ c, file = some c ∧ c.all pyIsSpace = true) := by
  constructor
  · intro i file hstrip hne
    simp [load_last_id, save_last_id, hstrip, hne]
  · intro file
    cases file with
    | none => simp [load_last_id]
    | some c =>
      simp [load_last_id, pyStrip_eq_nil_iff]

/-- C9 witness: the identifier `123` survives the save/load round-trip. -/
theorem c9_witness :
    load_last_id (save_last_id "123".data none) = some "123".data := by
  exact c9_roundtrip_amended.1 "123".data none (by decide) (by decide)

/-- C5 counterexample: an item whose id is `<&>` is interpolated into the
id line of the chat message verbatim — the raw characters appear, and the
escaped rendering of the id does not. -/
theorem c5_counterexample :
    List.IsInfix ("ID: <&>".data)
      (telegram_message [{ id := "<&>".data, title_fr := none, pdf := [] }]) ∧
    ¬ List.IsInfix ("ID: &lt;&amp;&gt;".data)
      (telegram_message [{ id := "<&>".data, title_fr := none, pdf := [] }]) := by
  set_option maxRecDepth 10000 in decide

/-- C5 amended: for every item of the new-items batch, the chat message
contains its id line interpolated verbatim (no escaping applied to the id)
followed by its title line with the title passed through the escaping
function; and when the item has a first document link with a truthy url,
the message contains the anchor whose text is the escaped label. -/
theorem c5_amended_title_label_escaped_id_raw (new_items : List Announcement)
    (a : Announcement) (ha : a ∈ new_items) :
    List.IsInfix
      ("\n\n- <b>ID: ".data ++ a.id ++ "</b>\n  <b>".data
        ++ format_telegram_text_html (a.title_fr.getD "Announcement".data)
        ++ "</b>".data)
      (telegram_message new_items) ∧
    (∀ p ps u, a.pdf = p :: ps → p.url = some u → u ≠ [] →
      List.IsInfix
        ([apos, '>']
          ++ format_telegram_text_html (p.label_fr.getD "View Document".data)
          ++ "</a>".data)
        (telegram_message new_items)) := by
  obtain ⟨l1, l2, hsplit⟩ := List.append_of_mem (List.mem_reverse.mpr ha)
  have hmsg : telegram_message new_items
      = ("<b>📢 ".data ++ (toString new_items.length).data
          ++ " New MEN Announcement(s)!</b>\n".data
          ++ (l1.map telegram_item_block).flatten)
        ++ telegram_item_block a
        ++ (l2.map telegram_item_block).flatten := by
    rw [telegram_message, hsplit]
    simp [List.append_assoc]
  constructor
  · refine ⟨"<b>📢 ".data ++ (toString new_items.length).data
      ++ " New MEN Announcement(s)!</b>\n".data
      ++ (l1.map telegram_item_block).flatten,
      pdf_link_part a ++ (l2.map telegram_item_block).flatten, ?_⟩
    rw [hmsg]
    simp [telegram_item_block, List.append_assoc]
  · intro p ps u hp hu hune
    have hlink : pdf_link_part a
        = ("\n  <a href=".data ++ [apos] ++ base_url ++ u)
          ++ ([apos, '>']
            ++ format_telegram_text_html (p.label_fr.getD "View Document".data)
            ++ "</a>".data) := by
      simp [pdf_link_part, hp, hu, hune, List.append_assoc]
    refine ⟨"<b>📢 ".data ++ (toString new_items.length).data
      ++ " New MEN Announcement(s)!</b>\n".data
      ++ (l1.map telegram_item_block).flatten
      ++ ("\n\n- <b>ID: ".data ++ a.id ++ "</b>\n  <b>".data
        ++ format_telegram_text_html (a.title_fr.getD "Announcement".data)
        ++ "</b>".data)
      ++ ("\n  <a href=".data ++ [apos] ++ base_url ++ u),
      (l2.map telegram_item_block).flatten, ?_⟩
    rw [hmsg]
    simp [telegram_item_block, hlink, List.append_assoc]

/-- A concrete announcement with markup characters in its title and link
label, used to witness the amended escaping statement. -/
def annP : Announcement :=
  { id := "7".data, title_fr := some "T&T".data,
    pdf := [{ url := some "d.pdf".data, label_fr := some "Doc<1>".data }] }

/-- C5 witness: for the one-item batch `[annP]` the chat message contains
the raw id line with escaped title, and the anchor with the escaped
label. -/
theorem c5_witness :
    List.IsInfix
      ("\n\n- <b>ID: ".data ++ "7".data ++ "</b>\n  <b>".data
        ++ format_telegram_text_html "T&T".data ++ "</b>".data)
      (telegram_message [annP]) ∧
    List.IsInfix
      ([apos, '>'] ++ format_telegram_text_html "Doc<1>".data ++ "</a>".data)
      (telegram_message [annP]) := by
  have h := c5_amended_title_label_escaped_id_raw [annP] annP (by simp)
  exact ⟨h.1, h.2 { url := some "d.pdf".data, label_fr := some "Doc<1>".data }
    [] "d.pdf".data rfl rfl (by decide)⟩
